import Mathlib

/-!
Shallow embedding of the HemoLink ML service (backend/ml-service) in Lean 4.

Conventions of the embedding:
* Python ints are `ℤ`, Python floats are `ℚ` (every float arithmetic step the
  claims touch is exact on the values involved: small integers and clip/round
  of integer-valued floats), Python bools are `Bool`, Python lists of strings
  are `List String`.
* External, nondeterministic components (the trained RandomForest model's
  prediction, every Gemini LLM call, the NLTK tokenizer/lemmatizer) are
  abstracted as explicit parameters: a claim quantifying over "any model
  prediction" becomes a `∀` over that parameter.
* Fallible calls that the Python code wraps in try/except are modelled with
  `Option`/`Except`: `none`/`.error` covers both a `None` return and a raised
  exception where the code treats them alike.
-/

namespace HemoLink

/-- Numpy round `np.round` rounds half to even (banker's rounding), returning an integer
value; embeds `np.round` applied to a scalar. Written with integer
arithmetic on the reduced numerator/denominator: `f` is `⌊q⌋` (floor
division of `num` by `den`), `r/den` is the fractional part `q - f`, and the
comparisons of `2 * r` with `den` compare that fractional part with `1/2`. -/
def npRound (q : ℚ) : ℤ :=
  let f : ℤ := q.num.fdiv q.den
  let r : ℤ := q.num - f * q.den
  if 2 * r < (q.den : ℤ) then f
  else if (q.den : ℤ) < 2 * r then f + 1
  else if f % 2 = 0 then f else f + 1

/-- Numpy clip `np.clip(x, lo, hi)` on integers (for `lo ≤ hi`). -/
def npClip (lo hi x : ℤ) : ℤ := max lo (min x hi)

/-- Characters treated as whitespace by Python's `str.strip()` and by the
regex `\s` on ASCII text: space, tab, newline, carriage return, vertical tab,
form feed. -/
def isPySpace (c : Char) : Bool :=
  c = ' ' || c = '\t' || c = '\n' || c = '\r' || c = '\x0b' || c = '\x0c'

/-- Replace every maximal run of whitespace by a single space
(`re.sub(r"\s+", " ", s)`); the `Bool` argument records whether the previous
character was whitespace. -/
def collapseWsAux : List Char → Bool → List Char
  | [], _ => []
  | c :: cs, prevWs =>
    if isPySpace c then
      if prevWs then collapseWsAux cs true
      else ' ' :: collapseWsAux cs true
    else c :: collapseWsAux cs false

/-- Python `str.strip()` on a character list: drop leading and trailing
whitespace. -/
def stripChars (cs : List Char) : List Char :=
  (((cs.dropWhile isPySpace).reverse).dropWhile isPySpace).reverse

/-- Python `str.strip()` on a `String`. -/
def pyStrip (s : String) : String :=
  String.mk (stripChars s.data)

namespace train_model

/-- Embeds `rule_based_score` from `train_model.py` (lines 19–37).
The Python float `score` only ever holds small integers (50 ± integer
bonuses), on which float arithmetic is exact and `np.round` is the identity,
so the computation is carried out in `ℤ`; `distance_km` stays `ℚ`. -/
def rule_based_score (days_since : ℤ) (distance_km : ℚ) (is_available : Bool)
    (health_flag_count : ℤ) : ℤ :=
  let min_days : ℤ := 90
  let score : ℤ := 50
  let score := if days_since ≥ min_days then score + 25
    else if days_since ≥ 60 then score + 10 else score
  let score := if is_available then score + 15 else score
  let score := if distance_km ≤ 5 then score + 10
    else if distance_km ≤ 15 then score + 5 else score
  let score := if health_flag_count = 0 then score + 5
    else score - health_flag_count * 10
  npClip 0 100 score

end train_model

namespace train_from_csv

/-- Embeds `rule_based_score` from `train_from_csv.py` (lines 23–41),
textually a second copy of the function in `train_model.py`. -/
def rule_based_score (days_since : ℤ) (distance_km : ℚ) (is_available : Bool)
    (health_flag_count : ℤ) : ℤ :=
  let min_days : ℤ := 90
  let score : ℤ := 50
  let score := if days_since ≥ min_days then score + 25
    else if days_since ≥ 60 then score + 10 else score
  let score := if is_available then score + 15 else score
  let score := if distance_km ≤ 5 then score + 10
    else if distance_km ≤ 15 then score + 5 else score
  let score := if health_flag_count = 0 then score + 5
    else score - health_flag_count * 10
  npClip 0 100 score

end train_from_csv

namespace eligibility_service

/-- Embeds `_build_features` from `eligibility_service.py` (lines 31–44) for a
list-valued `health_flags` argument (the branch
`len(health_flags) if isinstance(health_flags, list)`); the `np.array` row is
the Lean list, floats are `ℚ`. -/
def build_features (days_since_last_donation : ℤ) (distance_km : ℚ)
    (is_available_now : Bool) (health_flags : List String) : List ℚ :=
  let health_count : ℕ := health_flags.length
  [(days_since_last_donation : ℚ),
   distance_km,
   if is_available_now then 1 else 0,
   (health_count : ℚ)]

/-- Embeds the rule-based reason block of `compute_score_and_reasons`
(`eligibility_service.py` lines 88–105): the sequence of `append`s is the
concatenation of the per-condition singleton lists, in program order. -/
def rule_based_reasons (days_since_last_donation : ℤ) (distance_km : ℚ)
    (is_available_now : Bool) (flags_list : List String) (score : ℤ) :
    List String :=
  if "serious_condition" ∈ flags_list then
    ["Serious health condition (e.g. cancer) – not eligible for donation"]
  else
    (if days_since_last_donation ≥ 90 then ["Eligible by donation gap (90+ days)"]
     else if days_since_last_donation ≥ 60 then ["Donation gap moderate (60–90 days)"]
     else ["Recently donated – check eligibility"]) ++
    (if distance_km ≤ 5 then ["Proximity match – within 5 km"]
     else if distance_km ≤ 15 then ["Within 15 km"]
     else []) ++
    (if is_available_now then ["Marked available now"] else []) ++
    (if score ≥ 80 then ["High suitability score"] else [])

/-- Embeds `compute_score_and_reasons` from `eligibility_service.py`
(lines 47–107) on the path where the model artifacts are loaded.

External components become parameters:
* `pred` is `_model.predict(_scaler.transform(x))[0]`, the raw (arbitrary)
  regression output of the trained RandomForest on the scaled features;
* `geminiReasons` is the outcome of the guarded
  `generate_xai_reasons_with_gemini` call: `some rs` when it returns the list
  `rs`, `none` when it returns `None` or raises (the `except Exception: pass`
  branch). `if gemini_reasons:` is Python truthiness, false for both `None`
  and the empty list.

The score is `float(np.clip(np.round(pred), 0, 100))`, then capped at 15 when
`"serious_condition"` is among the flags; `int(score)` on this integer-valued
float is the identity, so the result score is the `ℤ` value itself. -/
def compute_score_and_reasons (pred : ℚ) (geminiReasons : Option (List String))
    (days_since_last_donation : ℤ) (distance_km : ℚ) (is_available_now : Bool)
    (health_flags : List String) : ℤ × List String :=
  let score0 : ℤ := npClip 0 100 (npRound pred)
  let flags_list := health_flags
  let score : ℤ :=
    if "serious_condition" ∈ flags_list then min score0 15 else score0
  let reasons : List String :=
    match geminiReasons with
    | some rs => rs
    | none => []
  let reasons :=
    if reasons = [] then
      rule_based_reasons days_since_last_donation distance_km is_available_now
        flags_list score
    else reasons
  (score, reasons)

end eligibility_service

namespace main

/-- Kind of Python exception escaping a handler's `try` body: `FileNotFoundError`
(raised by `_load_model` when the model artifact is missing) or any other
`Exception`; the payload is `str(e)`. -/
inductive PyExc
  | fileNotFound (msg : String)
  | otherExc (msg : String)
deriving DecidableEq, Repr

/-- Which code path produced the score of a `/predict-eligibility` response:
the full-context Gemini call (`eligibility_score_from_full_context`) or the
RandomForest path (`compute_score_and_reasons`). -/
inductive ScorePath
  | llmFullContext
  | randomForest
deriving DecidableEq, Repr

/-- Embeds the body of `predict_eligibility` (`main.py` lines 32–53) on the
non-raising path, tagged with the path that produced the score.

* `healthSummary` is `body.healthSummary` (`Optional[str]`);
  `(body.healthSummary or "").strip()` is `pyStrip` of `getD ""`.
* `geminiFull` is the outcome of `eligibility_score_from_full_context`: `some
  (score, reasons)` when it returns a pair, `none` when it returns `None`
  (no API key, request failure, unparsable reply).
* The remaining parameters are passed through to `compute_score_and_reasons`
  (see its doc comment for `pred` and `geminiReasons`). -/
def predict_dispatch (healthSummary : Option String)
    (geminiFull : Option (ℤ × List String)) (pred : ℚ)
    (geminiReasons : Option (List String)) (daysSinceLastDonation : ℤ)
    (distanceKm : ℚ) (isAvailableNow : Bool) (healthFlags : List String) :
    ScorePath × ℤ × List String :=
  let health_summary := pyStrip (healthSummary.getD "")
  if health_summary ≠ "" then
    match geminiFull with
    | some (score, reasons) => (ScorePath.llmFullContext, score, reasons)
    | none =>
        (ScorePath.randomForest,
         eligibility_service.compute_score_and_reasons pred geminiReasons
           daysSinceLastDonation distanceKm isAvailableNow healthFlags)
  else
    (ScorePath.randomForest,
     eligibility_service.compute_score_and_reasons pred geminiReasons
       daysSinceLastDonation distanceKm isAvailableNow healthFlags)

/-- HTTP status of a `/predict-eligibility` response as a function of the
`try` body's outcome (`main.py` lines 35–57): normal return → 200,
`FileNotFoundError` → `HTTPException(503)`, other exception →
`HTTPException(500)`. -/
def predict_eligibility_status (outcome : Except PyExc (ℤ × List String)) : ℕ :=
  match outcome with
  | Except.ok _ => 200
  | Except.error (PyExc.fileNotFound _) => 503
  | Except.error (PyExc.otherExc _) => 500

/-- HTTP status and response body of `/check-eligibility-from-health`
(`main.py` lines 60–70) as a function of the `check_blood_donation_eligible`
outcome: a raised exception is swallowed and the handler returns
`{"eligible": True, "reason": None}` with status 200. The body is
(eligible, reason). -/
def check_eligibility_from_health_response
    (outcome : Except PyExc (Option (Bool × Option String))) :
    ℕ × Bool × Option String :=
  match outcome with
  | Except.ok none => (200, true, none)
  | Except.ok (some (eligible, reason)) => (200, eligible, reason)
  | Except.error _ => (200, true, none)

/-- HTTP status of `/normalize-health` (`main.py` lines 73–80) as a function
of the `normalize_health_to_flags` outcome: any exception → 500. -/
def normalize_health_status (outcome : Except PyExc (List String)) : ℕ :=
  match outcome with
  | Except.ok _ => 200
  | Except.error _ => 500

end main

namespace nlp_health

/-- Embeds `_normalize_word` from `nlp_health.py` (lines 64–65):
`re.sub(r"\s+", " ", s).strip().lower()`. `Char.toLower` agrees with Python
`str.lower` on ASCII. -/
def normalize_word (s : String) : String :=
  String.mk (((collapseWsAux s.data false) |> stripChars).map Char.toLower)

/-- Predicate `leadsWith p s` is true when `p` is an initial segment of `s`. -/
def leadsWith : List Char → List Char → Bool
  | [], _ => true
  | _ :: _, [] => false
  | p :: ps, c :: cs => p == c && leadsWith ps cs

/-- Predicate `containsSeq pat s` is true when `pat` occurs as a contiguous subsequence
of `s`: Python's `pat in s` on strings. -/
def containsSeq (pat : List Char) : List Char → Bool
  | [] => leadsWith pat []
  | c :: cs => leadsWith pat (c :: cs) || containsSeq pat cs

/-- Python substring test `pat in text` on `String`s. -/
def strContains (pat text : String) : Bool :=
  containsSeq pat.data text.data

/-- Embeds `HEALTH_TERMS` from `nlp_health.py` (lines 34–61): flag → list of
terms to match, in source order (duplicated terms kept as written). -/
def HEALTH_TERMS : List (String × List String) :=
  [("recent_illness",
    ["ill", "illness", "sick", "sickness", "fever", "cold", "cough", "infection",
     "infect", "flu", "unwell", "recently", "virus", "feverish", "running nose",
     "sore throat", "cold", "weak", "unwell"]),
   ("diabetes",
    ["diabetes", "diabetic", "sugar", "glucose", "blood sugar", "hyperglycemia",
     "hypoglycemia", "insulin", "prediabetic"]),
   ("anemia",
    ["anemia", "anaemia", "haemoglobin", "hemoglobin", "hb", "low iron", "iron",
     "deficient", "thalassemia"]),
   ("bp",
    ["blood pressure", "hypertension", "hypertensive", "hypotension", "bp",
     "high bp", "low bp", "pressure"]),
   ("medication",
    ["medication", "medicine", "medicines", "drug", "drugs", "antibiotic",
     "antibiotics", "treatment", "prescription", "taking", "on drugs", "tablet",
     "injection"]),
   ("serious_condition",
    ["cancer", "chemotherapy", "hiv", "aids", "hepatitis", "heart disease", "stroke",
     "major surgery", "leukemia", "lymphoma", "tumor", "malignant", "oncology"])]

/-- The 2-grams and 3-grams of a word list, joined by single spaces: the
double loop `for i in range(len(words)): for n in (2, 3): ...` of
`_normalize_health_to_flags_nltk`, in the same order. -/
def gramsFrom : List String → List String
  | [] => []
  | w1 :: rest =>
    (match rest with
     | [] => []
     | w2 :: rest2 =>
       (w1 ++ " " ++ w2) ::
       (match rest2 with
        | [] => []
        | w3 :: _ => [w1 ++ " " ++ w2 ++ " " ++ w3])) ++ gramsFrom rest

/-- Python `list(dict.fromkeys(l))` with the already-seen elements accumulated in
`seen`: keep the first occurrence of each element, preserving order. -/
def dedupFirstAux (seen : List String) : List String → List String
  | [] => []
  | x :: xs =>
    if x ∈ seen then dedupFirstAux seen xs
    else x :: dedupFirstAux (x :: seen) xs

/-- Embeds `_normalize_health_to_flags_nltk` from `nlp_health.py`
(lines 108–128). The NLTK-produced token/lemma list
(`_tokenize_and_lemmatize`, an external library computation) is abstracted as
the parameter `tokens`; the 2/3-gram phrases appended to it and the direct
substring test `t_norm in text` are embedded exactly. Membership in the
Python `set` is membership in the combined list. -/
def normalize_health_to_flags_nltk (tokens : List String)
    (health_summary : String) : List String :=
  let text := normalize_word health_summary
  if text = "" then []
  else
    let words := text.splitOn " "
    let tokens_and_phrases := tokens ++ gramsFrom words
    let flags := HEALTH_TERMS.filterMap fun ft =>
      if ft.2.any (fun term =>
          let t_norm := normalize_word term
          tokens_and_phrases.contains t_norm || strContains t_norm text)
      then some ft.1 else none
    dedupFirstAux [] flags

/-- The dynamically typed `health_summary` argument of
`normalize_health_to_flags`: Python `None`, a string, or a value of any other
type. -/
inductive PyStrArg
  | noneVal
  | strVal (s : String)
  | otherVal
deriving DecidableEq, Repr

/-- Embeds `normalize_health_to_flags` from `nlp_health.py` (lines 131–148).
`geminiFlags` is the outcome of the guarded `generate_health_flags_with_gemini`
call: `some fl` when it returns the list `fl`, `none` when it returns `None`
or raises (the `except Exception: pass` branch); `tokens` abstracts the NLTK
tokenizer as in `normalize_health_to_flags_nltk`. A non-string argument
(`noneVal` or `otherVal`) fails `isinstance(health_summary, str)`;
`not health_summary` on a string is the emptiness test. -/
def normalize_health_to_flags (geminiFlags : Option (List String))
    (tokens : List String) (health_summary : PyStrArg) : List String :=
  match health_summary with
  | PyStrArg.strVal s =>
    if s = "" then []
    else if normalize_word s = "" then []
    else
      match geminiFlags with
      | some fl => fl
      | none => normalize_health_to_flags_nltk tokens s
  | _ => []

end nlp_health

/-! Helper lemmas -/

theorem dedupFirstAux_mem (a : String) :
    ∀ (l seen : List String), a ∈ nlp_health.dedupFirstAux seen l ↔ a ∈ l ∧ a ∉ seen := by
  intro l
  induction l with
  | nil => intro seen; simp [nlp_health.dedupFirstAux]
  | cons x xs ih =>
    intro seen
    by_cases hx : x ∈ seen
    · rw [nlp_health.dedupFirstAux, if_pos hx, ih]
      constructor
      · rintro ⟨hmem, hns⟩
        exact ⟨List.mem_cons_of_mem _ hmem, hns⟩
      · rintro ⟨hmem, hns⟩
        rcases List.mem_cons.mp hmem with h | h
        · exact absurd hx (h ▸ hns)
        · exact ⟨h, hns⟩
    · rw [nlp_health.dedupFirstAux, if_neg hx]
      simp only [List.mem_cons, ih, not_or]
      constructor
      · rintro (h | ⟨hmem, hne, hns⟩)
        · exact ⟨Or.inl h, fun hs => hx (h ▸ hs)⟩
        · exact ⟨Or.inr hmem, hns⟩
      · rintro ⟨h | h, hns⟩
        · exact Or.inl h
        · by_cases ha : a = x
          · exact Or.inl ha
          · exact Or.inr ⟨h, ha, hns⟩

theorem containsSeq_nil_eq (p : List Char) :
    nlp_health.containsSeq p [] = true → p = [] := by
  cases p with
  | nil => intro; rfl
  | cons c cs =>
    intro h
    simp [nlp_health.containsSeq, nlp_health.leadsWith] at h

theorem health_terms_normalized_nonempty :
    ∀ p ∈ nlp_health.HEALTH_TERMS, ∀ t ∈ p.2, nlp_health.normalize_word t ≠ "" := by
  decide

theorem rule_based_reasons_ne_nil (d : ℤ) (k : ℚ) (a : Bool) (fl : List String)
    (s : ℤ) : eligibility_service.rule_based_reasons d k a fl s ≠ [] := by
  unfold eligibility_service.rule_based_reasons
  split_ifs <;> simp

/-! Claim theorems -/

/-- C1: for every model prediction and every input (any integer
`days_since_last_donation`, any rational `distance_km`, any boolean
`is_available_now`, any list `health_flags`), the score returned by
`compute_score_and_reasons` is an integer (its type is `ℤ`) with
`0 ≤ score ≤ 100`. -/
theorem score_bounds_compute_score_and_reasons (pred : ℚ)
    (gr : Option (List String)) (d : ℤ) (k : ℚ) (a : Bool) (fl : List String) :
    0 ≤ (eligibility_service.compute_score_and_reasons pred gr d k a fl).1 ∧
    (eligibility_service.compute_score_and_reasons pred gr d k a fl).1 ≤ 100 := by
  unfold eligibility_service.compute_score_and_reasons npClip
  generalize npRound pred = n
  dsimp only
  split <;> omega

/-- C2: whenever `"serious_condition"` is among the health flags, the score
returned by `compute_score_and_reasons` is at most 15, for every model
prediction and all other inputs. -/
theorem serious_condition_caps_score (pred : ℚ) (gr : Option (List String))
    (d : ℤ) (k : ℚ) (a : Bool) (fl : List String)
    (hser : "serious_condition" ∈ fl) :
    (eligibility_service.compute_score_and_reasons pred gr d k a fl).1 ≤ 15 := by
  unfold eligibility_service.compute_score_and_reasons npClip
  generalize npRound pred = n
  dsimp only
  rw [if_pos hser]
  omega

/-- C2 witness: concrete instance with the flag present and a model
prediction of 100. -/
theorem serious_condition_caps_score_witness :
    (eligibility_service.compute_score_and_reasons 100 none 120 2 true
      ["serious_condition"]).1 ≤ 15 :=
  serious_condition_caps_score 100 none 120 2 true ["serious_condition"]
    (by decide)

/-- C5: `rule_based_score` from `train_model.py` is monotone non-decreasing
in `days_since` for fixed distance, availability and health-flag count. The
instance at the 90-day threshold (score at 90 at least the score at 89)
follows by instantiation, as in the witness. -/
theorem rule_based_score_monotone_days (k : ℚ) (a : Bool) (h : ℤ)
    (d1 d2 : ℤ) (hd : d1 ≤ d2) :
    train_model.rule_based_score d1 k a h ≤ train_model.rule_based_score d2 k a h := by
  unfold train_model.rule_based_score npClip
  dsimp only
  split_ifs <;> omega

/-- C5 witness: at distance 10 km, available, no flags, the score at 90 days
is at least the score at 89 days. -/
theorem rule_based_score_monotone_days_witness :
    train_model.rule_based_score 89 10 true 0 ≤ train_model.rule_based_score 90 10 true 0 :=
  rule_based_score_monotone_days 10 true 0 89 90 (by decide)

/-- C7: the two copies of the rule-based scorer, in `train_model.py` and
`train_from_csv.py`, compute the same function on every input. -/
theorem rule_based_score_copies_agree (d : ℤ) (k : ℚ) (a : Bool) (h : ℤ) :
    train_model.rule_based_score d k a h = train_from_csv.rule_based_score d k a h :=
  rfl

/-- C8: `_build_features` produces exactly the flat 4-feature vector, in
order: days since donation, distance, availability encoded 1/0, and the
length of the flags list. -/
theorem build_features_components (d : ℤ) (k : ℚ) (a : Bool) (fl : List String) :
    (eligibility_service.build_features d k a fl).length = 4 ∧
    (eligibility_service.build_features d k a fl)[0]? = some (d : ℚ) ∧
    (eligibility_service.build_features d k a fl)[1]? = some k ∧
    (eligibility_service.build_features d k a fl)[2]? =
      some (if a then 1 else 0) ∧
    (eligibility_service.build_features d k true fl)[2]? = some 1 ∧
    (eligibility_service.build_features d k false fl)[2]? = some 0 ∧
    (eligibility_service.build_features d k a fl)[3]? = some ((fl.length : ℚ)) :=
  ⟨rfl, rfl, rfl, rfl, rfl, rfl, rfl⟩

/-- C6: keyword match implies flag presence. For every flag of
`HEALTH_TERMS` and every term listed for it, and for every health summary
whose whitespace-normalized lowercase text contains the normalized term as a
substring, `_normalize_health_to_flags_nltk` includes the flag in its output,
whatever token list the NLTK tokenizer/lemmatizer produced. -/
theorem keyword_match_implies_flag (tokens : List String)
    (flag term summary : String) (terms : List String)
    (hmem : (flag, terms) ∈ nlp_health.HEALTH_TERMS) (hterm : term ∈ terms)
    (hsub : nlp_health.strContains (nlp_health.normalize_word term)
      (nlp_health.normalize_word summary) = true) :
    flag ∈ nlp_health.normalize_health_to_flags_nltk tokens summary := by
  have hne : nlp_health.normalize_word term ≠ "" :=
    health_terms_normalized_nonempty (flag, terms) hmem term hterm
  by_cases htext : nlp_health.normalize_word summary = ""
  · exfalso
    apply hne
    simp only [nlp_health.strContains] at hsub
    have hdata : (nlp_health.normalize_word summary).data = [] := by
      rw [htext]
    rw [hdata] at hsub
    have := containsSeq_nil_eq _ hsub
    exact String.ext this
  · unfold nlp_health.normalize_health_to_flags_nltk
    rw [if_neg htext]
    rw [dedupFirstAux_mem]
    refine ⟨?_, by simp⟩
    rw [List.mem_filterMap]
    refine ⟨(flag, terms), hmem, ?_⟩
    simp
    exact ⟨term, hterm, fun _ _ => hsub⟩

/-- C6 witness: the summary "I have Cancer" normalizes to a text containing
the term "cancer", so the extractor flags `serious_condition` even with an
empty NLTK token list. -/
theorem keyword_match_implies_flag_witness :
    "serious_condition" ∈ nlp_health.normalize_health_to_flags_nltk [] "I have Cancer" :=
  keyword_match_implies_flag [] "serious_condition" "cancer" "I have Cancer"
    ["cancer", "chemotherapy", "hiv", "aids", "hepatitis", "heart disease", "stroke",
     "major surgery", "leukemia", "lymphoma", "tumor", "malignant", "oncology"]
    (by decide) (by decide) (by decide)

/-- C9: `compute_score_and_reasons` always returns a non-empty reason list;
the rule-based block itself always yields at least one reason; and a Gemini
result replaces the rule-based reasons exactly when its list is non-empty. -/
theorem reasons_nonempty (pred : ℚ) (gr : Option (List String)) (d : ℤ)
    (k : ℚ) (a : Bool) (fl : List String) :
    (eligibility_service.compute_score_and_reasons pred gr d k a fl).2 ≠ [] ∧
    eligibility_service.rule_based_reasons d k a fl
      (eligibility_service.compute_score_and_reasons pred gr d k a fl).1 ≠ [] ∧
    (∀ rs, gr = some rs → rs ≠ [] →
      (eligibility_service.compute_score_and_reasons pred gr d k a fl).2 = rs) := by
  refine ⟨?_, rule_based_reasons_ne_nil d k a fl _, ?_⟩
  · unfold eligibility_service.compute_score_and_reasons
    dsimp only
    cases gr with
    | none => simp [rule_based_reasons_ne_nil]
    | some rs =>
      by_cases hrs : rs = []
      · simp [hrs, rule_based_reasons_ne_nil]
      · simp [hrs]
  · intro rs hgr hrs
    subst hgr
    unfold eligibility_service.compute_score_and_reasons
    dsimp only
    simp [hrs]

/-- C9 witness: with no Gemini reasons the result carries the (non-empty)
rule-based reasons, and a non-empty Gemini list is passed through. -/
theorem reasons_nonempty_witness :
    (eligibility_service.compute_score_and_reasons 95 (some ["llm says ok"]) 120 3
      true []).2 = ["llm says ok"] ∧
    (eligibility_service.compute_score_and_reasons 95 none 120 3 true []).2 ≠ [] :=
  ⟨(reasons_nonempty 95 (some ["llm says ok"]) 120 3 true []).2.2 ["llm says ok"]
      rfl (by decide),
   (reasons_nonempty 95 none 120 3 true []).1⟩

/-- C10: `normalize_health_to_flags` returns `[]` on every degenerate input —
`None`, a non-string value, or a string whose normalized text is empty (the
empty string and whitespace-only strings) — for every Gemini outcome and
token list. -/
theorem degenerate_input_empty_flags (g : Option (List String))
    (tokens : List String) :
    nlp_health.normalize_health_to_flags g tokens nlp_health.PyStrArg.noneVal = [] ∧
    nlp_health.normalize_health_to_flags g tokens nlp_health.PyStrArg.otherVal = [] ∧
    (∀ s, nlp_health.normalize_word s = "" →
      nlp_health.normalize_health_to_flags g tokens (nlp_health.PyStrArg.strVal s) = []) := by
  refine ⟨rfl, rfl, fun s hs => ?_⟩
  unfold nlp_health.normalize_health_to_flags
  by_cases h0 : s = ""
  · simp [h0]
  · simp [h0, hs]

/-- C10 witness: the whitespace-only summary `"  \t "` yields no flags even
when Gemini would return a flag. -/
theorem degenerate_input_empty_flags_witness :
    nlp_health.normalize_health_to_flags (some ["diabetes"]) ["cancer"]
      (nlp_health.PyStrArg.strVal "  \t ") = [] :=
  (degenerate_input_empty_flags (some ["diabetes"]) ["cancer"]).2.2 "  \t "
    (by decide)

/-- C3 counterexample: an exception during handling of POST
`/check-eligibility-from-health` is swallowed by the handler, which responds
with status 200 (body `eligible = true`), not 500 as the claim states. -/
theorem check_endpoint_exception_returns_200 :
    main.check_eligibility_from_health_response
      (Except.error (main.PyExc.otherExc "boom")) = (200, true, none) ∧
    (200 : ℕ) ≠ 500 :=
  ⟨rfl, by decide⟩

/-- C3 amended: exception-to-status translation per endpoint. For
`/predict-eligibility`, `FileNotFoundError` (missing model file) → 503 and
any other exception → 500; for `/normalize-health`, any exception → 500; for
`/check-eligibility-from-health`, any exception is swallowed and the handler
returns 200 with `eligible = true`. Successful handling returns 200
everywhere. -/
theorem endpoint_error_translation (msg : String) (e : main.PyExc)
    (v : ℤ × List String) (fl : List String)
    (r : Option (Bool × Option String)) :
    main.predict_eligibility_status (Except.ok v) = 200 ∧
    main.predict_eligibility_status
      (Except.error (main.PyExc.fileNotFound msg)) = 503 ∧
    main.predict_eligibility_status
      (Except.error (main.PyExc.otherExc msg)) = 500 ∧
    main.normalize_health_status (Except.ok fl) = 200 ∧
    main.normalize_health_status (Except.error e) = 500 ∧
    (main.check_eligibility_from_health_response (Except.ok r)).1 = 200 ∧
    main.check_eligibility_from_health_response (Except.error e) =
      (200, true, none) := by
  refine ⟨rfl, rfl, rfl, rfl, ?_, ?_, ?_⟩
  · cases e <;> rfl
  · rcases r with _ | ⟨el, re⟩ <;> rfl
  · cases e <;> rfl

/-- C4 counterexample: with `healthSummary` set and the full-context LLM call
succeeding, `/predict-eligibility` returns the LLM score (42) although the
model path did not fail (it would yield 100): the LLM is consulted first, not
only after a model failure. -/
theorem llm_used_before_model_counterexample :
    main.predict_dispatch (some "has cancer") (some (42, ["llm reason"])) 100
      none 120 2 true [] =
      (main.ScorePath.llmFullContext, 42, ["llm reason"]) ∧
    (eligibility_service.compute_score_and_reasons 100 none 120 2 true []).1 = 100 ∧
    (42 : ℤ) ≠ 100 := by
  refine ⟨?_, by decide, by decide⟩
  decide

/-- C4 amended: the actual order on `/predict-eligibility` is LLM first, then
model. When the trimmed `healthSummary` is non-empty and the full-context
Gemini call succeeds, its result is returned and the model is not consulted;
in every other case the score comes from the RandomForest path
(`compute_score_and_reasons`), whose rule-based logic contributes only
reasons, never the score. -/
theorem predict_dispatch_order (hs : Option String)
    (gf : Option (ℤ × List String)) (pred : ℚ) (gr : Option (List String))
    (d : ℤ) (k : ℚ) (a : Bool) (fl : List String) :
    (∀ s rs, pyStrip (hs.getD "") ≠ "" → gf = some (s, rs) →
      main.predict_dispatch hs gf pred gr d k a fl =
        (main.ScorePath.llmFullContext, s, rs)) ∧
    (pyStrip (hs.getD "") = "" ∨ gf = none →
      main.predict_dispatch hs gf pred gr d k a fl =
        (main.ScorePath.randomForest,
         eligibility_service.compute_score_and_reasons pred gr d k a fl)) := by
  constructor
  · intro s rs hne hgf
    subst hgf
    unfold main.predict_dispatch
    rw [if_pos hne]
  · rintro (h | h)
    · unfold main.predict_dispatch
      rw [if_neg (by simpa using h)]
    · subst h
      unfold main.predict_dispatch
      by_cases hc : pyStrip (hs.getD "") ≠ ""
      · rw [if_pos hc]
      · rw [if_neg hc]

/-- C4 amended witness: a successful LLM call with non-empty summary is
returned as-is; with no summary the RandomForest path is taken. -/
theorem predict_dispatch_order_witness :
    main.predict_dispatch (some "cancer") (some (7, ["r"])) 0 none 0 0 false [] =
      (main.ScorePath.llmFullContext, 7, ["r"]) ∧
    main.predict_dispatch none none 0 none 0 0 false [] =
      (main.ScorePath.randomForest,
       eligibility_service.compute_score_and_reasons 0 none 0 0 false []) :=
  ⟨(predict_dispatch_order (some "cancer") (some (7, ["r"])) 0 none 0 0 false []).1
      7 ["r"] (by decide) rfl,
   (predict_dispatch_order none none 0 none 0 0 false []).2 (Or.inr rfl)⟩

end HemoLink

